import Mathlib

/-!
Verification development for the `pcb_forge` repository.

The two source files under scrutiny are `src/main.rs` (the `build`
orchestration function) and `src/config/machine.rs` (the machine / job
configuration data model).  Physical quantities (`uom` `Length`, `Power`,
`AngularVelocity`, `Velocity` over `f32`) are embedded as rationals holding
the SI base value, so `Length.val` is metres, exactly as `uom` stores them.
Modules of the repository that are not under `src/` (`gerber_file.rs`,
`gcode_generation.rs`, `forge_file.rs`, `config.rs`, `parsing.rs`) are
modelled from the spec; each such definition says so in its doc comment.
-/

namespace PcbForge

/-- Embedding of `uom` `Length<SI<f32>, f32>`: the stored rational is the SI
base value in metres (machine.rs uses these via `parse_quantity`). -/
structure Length where
  val : ℚ
deriving DecidableEq

/-- Embedding of `Length::new::<millimeter>(x)`: millimetres are stored as
`x / 1000` metres. -/
def Length.ofMillimeter (x : ℚ) : Length :=
  ⟨x / 1000⟩

/-- Half of a length, used for engagement-radius computations. -/
def Length.half (d : Length) : Length :=
  ⟨d.val / 2⟩

/-- Embedding of `uom` `Power<SI<f32>, f32>` (SI base value in watts). -/
structure Power where
  val : ℚ
deriving DecidableEq

/-- Embedding of `uom` `AngularVelocity<SI<f32>, f32>` (SI base value in
radians per second). -/
structure AngularVelocity where
  val : ℚ
deriving DecidableEq

/-- Embedding of `uom` `Velocity<SI<f32>, f32>` (SI base value in metres per
second). -/
structure Velocity where
  val : ℚ
deriving DecidableEq

/-- Embedding of `WorkspaceSize` (machine.rs lines 29-35). -/
structure WorkspaceSize where
  width : Length
  height : Length
deriving DecidableEq

/-- Embedding of the `ToolConfig` enum (machine.rs lines 61-92): the
tool-power parameters of a job configuration.  `Laser` carries a laser power
and a work speed; `Drill` carries a spindle rpm and a plunge speed; `EndMill`
carries a spindle rpm, a max cut depth, a plunge speed and a work speed. -/
inductive ToolConfig where
  | Laser (laser_power : Power) (work_speed : Velocity)
  | Drill (spindle_rpm : AngularVelocity) (plunge_speed : Velocity)
  | EndMill (spindle_rpm : AngularVelocity) (max_cut_depth : Length)
      (plunge_speed : Velocity) (work_speed : Velocity)
deriving DecidableEq

/-- True on the two spindle-tool variants of `ToolConfig` (`Drill`,
`EndMill`), false on `Laser`. -/
def ToolConfig.isSpindleKind : ToolConfig → Bool
  | .Laser _ _ => false
  | .Drill _ _ => true
  | .EndMill _ _ _ _ => true

/-- True exactly on the `Laser` variant of `ToolConfig`. -/
def ToolConfig.isLaserKind : ToolConfig → Bool
  | .Laser _ _ => true
  | _ => false

/-- True exactly on the `Drill` variant of `ToolConfig`. -/
def ToolConfig.isDrillKind : ToolConfig → Bool
  | .Drill _ _ => true
  | _ => false

/-- True exactly on the `EndMill` variant of `ToolConfig`. -/
def ToolConfig.isEndMillKind : ToolConfig → Bool
  | .EndMill _ _ _ _ => true
  | _ => false

/-- Whether the `ToolConfig` variant carries a `work_speed` field. -/
def ToolConfig.hasWorkSpeed : ToolConfig → Bool
  | .Laser _ _ => true
  | .Drill _ _ => false
  | .EndMill _ _ _ _ => true

/-- Whether the `ToolConfig` variant carries a `max_cut_depth` field. -/
def ToolConfig.hasMaxCutDepth : ToolConfig → Bool
  | .Laser _ _ => false
  | .Drill _ _ => false
  | .EndMill _ _ _ _ => true

/-- Whether the `ToolConfig` variant carries a `spindle_rpm` field. -/
def ToolConfig.hasSpindleRpm : ToolConfig → Bool
  | .Laser _ _ => false
  | .Drill _ _ => true
  | .EndMill _ _ _ _ => true

/-- Whether the `ToolConfig` variant carries a `plunge_speed` field. -/
def ToolConfig.hasPlungeSpeed : ToolConfig → Bool
  | .Laser _ _ => false
  | .Drill _ _ => true
  | .EndMill _ _ _ _ => true

/-- Whether the `ToolConfig` variant carries a `laser_power` field. -/
def ToolConfig.hasLaserPower : ToolConfig → Bool
  | .Laser _ _ => true
  | _ => false

/-- Embedding of `distance_per_step_default` (machine.rs lines 57-59):
`Length::new::<millimeter>(0.1)`. -/
def distance_per_step_default : Length :=
  Length.ofMillimeter (1 / 10)

/-- Embedding of `JobConfig` (machine.rs lines 43-55).  The `tool` path
(`Utf8PathBuf`) is represented as its list of components. -/
structure JobConfig where
  tool : List String
  distance_per_step : Length
  tool_power : ToolConfig
deriving DecidableEq

/-- Serde construction semantics of `JobConfig`: `distance_per_step` carries
`#[serde(default = "distance_per_step_default")]`, so an absent field is
replaced by `distance_per_step_default` (machine.rs lines 49-50). -/
def JobConfig.fromFields (tool : List String) (dps : Option Length)
    (tp : ToolConfig) : JobConfig :=
  { tool := tool
    distance_per_step := dps.getD distance_per_step_default
    tool_power := tp }

/-- Embedding of `LaserConfig` (machine.rs lines 141-148). -/
structure LaserConfig where
  point_diameter : Length
  max_power : Power
deriving DecidableEq

/-- Embedding of the `SpindleBit` enum (machine.rs lines 158-171). -/
inductive SpindleBit where
  | Drill (diameter : Length)
  | EndMill (diameter : Length)
deriving DecidableEq

/-- The bit diameter, carried by both `SpindleBit` variants. -/
def SpindleBit.diameter : SpindleBit → Length
  | .Drill d => d
  | .EndMill d => d

/-- Embedding of `SpindleConfig` (machine.rs lines 150-156); the `HashMap`
of bits becomes an association list with distinct keys looked up by first
match. -/
structure SpindleConfig where
  max_speed : AngularVelocity
  bits : List (String × SpindleBit)
deriving DecidableEq

/-- Embedding of the `Tool` enum (machine.rs lines 132-139). -/
inductive Tool where
  | Laser (laser : LaserConfig)
  | Spindle (spindle : SpindleConfig)
deriving DecidableEq

/-- Embedding of `Machine` (machine.rs lines 15-27); `HashMap`s become
association lists. -/
structure Machine where
  tools : List (String × Tool)
  engraving_configs : List (String × JobConfig)
  cutting_configs : List (String × JobConfig)
  workspace_area : WorkspaceSize
deriving DecidableEq

/-- How a configuration field is deserialized in machine.rs: through the
checked textual value+unit parser (`#[serde(deserialize_with =
"parse_quantity")]`), through the type's own derived deserializer, or
through the derived deserializer combined with a `#[serde(default = ...)]`
function. -/
inductive DeserVia where
  | parseQuantity
  | serdeDerive
  | serdeDeriveDefault (defaultFn : String)
deriving DecidableEq

/-- One field of the machine/job configuration schema: its qualified name,
whether its Rust type is a dimensioned physical quantity (a `uom` quantity
type), and which deserializer machine.rs routes it through. -/
structure FieldSpec where
  name : String
  physicalQuantity : Bool
  deser : DeserVia
deriving DecidableEq

/-- Transcription of every field of the machine.rs configuration structs
with its serde deserialization route, read off the `#[serde(...)]`
attributes of machine.rs.  Note `JobConfig.distance_per_step` (lines 49-50)
carries only `#[serde(default = "distance_per_step_default")]` and no
`deserialize_with = "parse_quantity"`: when present in the input it is
deserialized by the quantity type's derived deserializer. -/
def machineConfigFields : List FieldSpec :=
  [ ⟨"Machine.tools", false, .serdeDerive⟩,
    ⟨"Machine.engraving_configs", false, .serdeDerive⟩,
    ⟨"Machine.cutting_configs", false, .serdeDerive⟩,
    ⟨"Machine.workspace_area", false, .serdeDerive⟩,
    ⟨"WorkspaceSize.width", true, .parseQuantity⟩,
    ⟨"WorkspaceSize.height", true, .parseQuantity⟩,
    ⟨"JobConfig.tool", false, .serdeDerive⟩,
    ⟨"JobConfig.distance_per_step", true,
      .serdeDeriveDefault "distance_per_step_default"⟩,
    ⟨"ToolConfig.Laser.laser_power", true, .parseQuantity⟩,
    ⟨"ToolConfig.Laser.work_speed", true, .parseQuantity⟩,
    ⟨"ToolConfig.Drill.spindle_rpm", true, .parseQuantity⟩,
    ⟨"ToolConfig.Drill.plunge_speed", true, .parseQuantity⟩,
    ⟨"ToolConfig.EndMill.spindle_rpm", true, .parseQuantity⟩,
    ⟨"ToolConfig.EndMill.max_cut_depth", true, .parseQuantity⟩,
    ⟨"ToolConfig.EndMill.plunge_speed", true, .parseQuantity⟩,
    ⟨"ToolConfig.EndMill.work_speed", true, .parseQuantity⟩,
    ⟨"LaserConfig.point_diameter", true, .parseQuantity⟩,
    ⟨"LaserConfig.max_power", true, .parseQuantity⟩,
    ⟨"SpindleConfig.max_speed", true, .parseQuantity⟩,
    ⟨"SpindleConfig.bits", false, .serdeDerive⟩,
    ⟨"SpindleBit.Drill.diameter", true, .parseQuantity⟩,
    ⟨"SpindleBit.EndMill.diameter", true, .parseQuantity⟩ ]

/-- Modelled from the spec: `gcode_generation.rs` is not under `src/`.  A
machine coordinate value of the Command Codec; `f32` values are either a
finite rational or non-finite (NaN / Infinity), which the codec must reject
with `InvalidCoordinate`. -/
inductive GFloat where
  | finite (q : ℚ)
  | nonfinite
deriving DecidableEq

/-- Modelled from the spec: tool-state payload of `SetToolState` (on with a
power-or-rpm parameter, or off). -/
inductive ToolState where
  | on (power : GFloat)
  | off
deriving DecidableEq

/-- Modelled from the spec: the abstract `MotionCommand` of the Toolpath
Generator / Command Codec interface — `RapidMove{x,y}`, `CutMove{x,y,z?}`,
`SetToolState{on/off, power-or-rpm}`, `Comment{text}`. -/
inductive MotionCommand where
  | RapidMove (x y : GFloat)
  | CutMove (x y : GFloat) (z : Option GFloat)
  | SetToolState (s : ToolState)
  | Comment (text : String)
deriving DecidableEq

/-- Embedding of `GCodeFile` (constructed by `GCodeFile::new(commands)` in
main.rs line 228): an ordered command sequence. -/
structure GCodeFile where
  commands : List MotionCommand
deriving DecidableEq

/-- Embedding of `GCodeFile::new`. -/
def GCodeFile.new (commands : List MotionCommand) : GCodeFile :=
  ⟨commands⟩

/-- Modelled from the spec: fixed-decimal rendering of a coordinate in
millimetres (three decimal places, rendered as thousandths). -/
def fmtQ (q : ℚ) : String :=
  toString (Rat.floor (q * 1000))

/-- Modelled from the spec: render one coordinate, failing with
`InvalidCoordinate` on a non-finite value. -/
def GFloat.render : GFloat → Except String String
  | .finite q => .ok (fmtQ q)
  | .nonfinite => .error "InvalidCoordinate"

/-- Modelled from the spec: serialize one `MotionCommand` to its G-code
line (`G0`, `G1`, `M3`/`M5`, `;` comment). -/
def MotionCommand.line : MotionCommand → Except String String
  | .RapidMove x y => do
      let sx ← x.render
      let sy ← y.render
      .ok ("G0 X" ++ sx ++ " Y" ++ sy)
  | .CutMove x y z => do
      let sx ← x.render
      let sy ← y.render
      match z with
      | some zc => do
          let sz ← zc.render
          .ok ("G1 X" ++ sx ++ " Y" ++ sy ++ " Z" ++ sz)
      | none => .ok ("G1 X" ++ sx ++ " Y" ++ sy)
  | .SetToolState s =>
      match s with
      | .on p => do
          let sp ← p.render
          .ok ("M3 S" ++ sp)
      | .off => .ok "M5"
  | .Comment t => .ok ("; " ++ t)

/-- Modelled from the spec: `GCodeFile::to_string` (called in main.rs lines
229-231), the Command Codec — serialize the ordered command sequence to the
textual dialect, one line per command, failing only on a non-finite
coordinate. -/
def GCodeFile.to_string (f : GCodeFile) : Except String String :=
  (f.commands.mapM MotionCommand.line).map (String.intercalate "\n")

/-- Embedding of `ToolSelection` as constructed in main.rs lines 135-148
(the enum itself lives in the absent `gcode_generation.rs`): a laser, or a
spindle together with the selected bit. -/
inductive ToolSelection where
  | Laser (laser : LaserConfig)
  | Spindle (spindle : SpindleConfig) (bit : SpindleBit)
deriving DecidableEq

/-- Modelled from the spec: `gcode_generation.rs` is not under `src/`; the
spec derives the geometric compensation (engagement) radius as half of the
laser point diameter or half of the selected bit diameter. -/
def ToolSelection.engagementRadius : ToolSelection → Length
  | .Laser laser => laser.point_diameter.half
  | .Spindle _ bit => bit.diameter.half

/-- Modelled from the spec: `gerber_file.rs` is not under `src/`.  Carrier
for a (possibly partially) loaded gerber drawing; the claims under study
never inspect its contents, so it is kept abstract as a token list. -/
structure GerberFile where
  primitives : List String
deriving DecidableEq

/-- Modelled from the spec: one stage of a forge file, as matched by
main.rs lines 78-223 (`forge_file.rs` is not under `src/`).  Path-valued
fields (`Utf8PathBuf`) are lists of components; the `gcode_file`
destination is kept as a plain string key. -/
inductive Stage where
  | EngraveMask (machine_config : Option (List String)) (gerber_file : String)
      (gcode_file : String)
  | CutBoard (machine_config : Option (List String)) (gcode_file : String)
      (file : String)
deriving DecidableEq

/-- Modelled from the spec: the forge file (`forge_file.rs` is not under
`src/`) — named machines plus the ordered stage list, as used by main.rs. -/
structure ForgeFile where
  machines : List (String × Machine)
  stages : List Stage
deriving DecidableEq

/-- Modelled from the spec: the global configuration (`config.rs` is not
under `src/`) as consumed by main.rs lines 89 and 110 — an optional default
engraver path and a named machine library. -/
structure Config where
  default_engraver : Option (List String)
  machines : List (String × Machine)
deriving DecidableEq

/-- Embedding of the `BuildCommand` arguments used by `build`
(`arguments.rs` is not under `src/`): the directory containing the forge
file (its `parent()`), the target directory, and the debug flag. -/
structure BuildCommand where
  forgeDir : String
  targetDirectory : String
  debug : Bool
deriving DecidableEq

/-- Association-list lookup by first matching key, embedding `HashMap::get`
(the Rust maps have distinct keys). -/
def alistGet {α : Type} (m : List (String × α)) (k : String) : Option α :=
  match m with
  | [] => none
  | (k', v) :: rest => if k' = k then some v else alistGet rest k

/-- Lookup with a default, embedding the value behind
`HashMap::entry(k).or_default()`. -/
def alistGetD {α : Type} (m : List (String × α)) (k : String) (d : α) : α :=
  (alistGet m k).getD d

/-- Embedding of `gcode_files.entry(gcode_file.clone()).or_default()`
followed by appending `cmds` to that entry (main.rs lines 84 and 210-213):
the entry's list is extended in place, or a fresh entry is created. -/
def appendEntry (m : List (String × List MotionCommand)) (k : String)
    (cmds : List MotionCommand) : List (String × List MotionCommand) :=
  match m with
  | [] => [(k, cmds)]
  | (k', v) :: rest =>
      if k' = k then (k', v ++ cmds) :: rest
      else (k', v) :: appendEntry rest k cmds

/-- Join path components with a slash, the string form of a `Utf8Path`. -/
def joinPath (p : List String) : String :=
  String.intercalate "/" p

/-- Embedding of `Utf8Path::ancestors()` on a relative path given by its
components: the path itself, then each parent, down to the empty path.
For `a/b` it yields `[a, b]`, `[a]`, `[]`. -/
def pathAncestors (p : List String) : List (List String) :=
  (List.range (p.length + 1)).map (fun k => p.take (p.length - k))

/-- Embedding of main.rs lines 87-90: the stage's own machine-config path
takes precedence, the global `default_engraver` is used only when the stage
specifies none, and it is an error when neither exists. -/
def resolveMachinePath (mc : Option (List String)) (g : Config) :
    Except String (List String) :=
  match mc.or g.default_engraver with
  | some p => .ok p
  | none => .error "An engraver was not specified and a global default is not set."

/-- Embedding of main.rs lines 93-105: the machine-config path must consist
of exactly a machine name followed by a profile name. -/
def splitMachinePath (p : List String) : Except String (String × String) :=
  match p with
  | [] => .error "Machine name not provided by machine config path."
  | [_] => .error "Machine profile not provided by machine config path."
  | [n, pr] => .ok (n, pr)
  | _ => .error "Too many parts to machine config path."

/-- Embedding of main.rs lines 107-111: a machine defined in the forge file
shadows a global-config machine of the same name. -/
def lookupMachine (forge : ForgeFile) (g : Config) (name : String) :
    Except String Machine :=
  match (alistGet forge.machines name).or (alistGet g.machines name) with
  | some m => .ok m
  | none => .error "Failed to find machine configuration."

/-- Embedding of main.rs lines 120-148: walk `job_config.tool.ancestors()`
(whose first element is the whole path) for the tool name and optional bit
name, then build the `ToolSelection`. -/
def resolveTool (machine : Machine) (job : JobConfig) :
    Except String ToolSelection :=
  match pathAncestors job.tool with
  | [] => .error "no tool name provided"
  | tn :: rest =>
      let tool_name := joinPath tn
      let bit_name := rest.head?.map joinPath
      match alistGet machine.tools tool_name with
      | none => .error "Could not find specified tool."
      | some (.Laser laser) => .ok (.Laser laser)
      | some (.Spindle spindle) =>
          match bit_name with
          | none => .error "No bit name provided for spindle."
          | some bn =>
              match alistGet spindle.bits bn with
              | none => .error "Spindle does not have a bit with requested name."
              | some bit => .ok (.Spindle spindle bit)

/-- Embedding of main.rs lines 87-148: resolve the machine-config path, the
machine, the engraving profile (`JobConfig`) and the `ToolSelection` for
one engrave stage. -/
def resolveJobAndTool (forge : ForgeFile) (g : Config)
    (mc : Option (List String)) : Except String (JobConfig × ToolSelection) := do
  let p ← resolveMachinePath mc g
  let np ← splitMachinePath p
  let machine ← lookupMachine forge g np.1
  let job ← match alistGet machine.engraving_configs np.2 with
            | some j => .ok j
            | none => .error "Failed to find machine profile."
  let sel ← resolveTool machine job
  .ok (job, sel)

/-- One file produced by `build`: a per-stage debug SVG (main.rs lines
163-182 and 188-208) or a G-code output file (main.rs lines 226-233). -/
inductive FileWrite where
  | debugSvg (stageIndex : ℕ) (name : String) (content : String)
  | gcode (path : String) (content : String)
deriving DecidableEq

/-- True exactly on G-code output-file writes. -/
def FileWrite.isGcode : FileWrite → Bool
  | .gcode _ _ => true
  | .debugSvg _ _ _ => false

/-- The mutable state threaded through the build loop: the per-destination
G-code accumulators (`gcode_files` in main.rs line 60) and the trace of
files written so far. -/
structure BuildState where
  gcodeFiles : List (String × List MotionCommand)
  writes : List FileWrite
deriving DecidableEq

/-- The I/O and missing-module collaborators of `build`, passed as oracles:
`gerber_file::load` (returning the partially loaded drawing and an optional
error), the debug SVG rendering of a drawing (raw or simplified), and
`GerberFile::generate_gcode` producing the stage's motion commands. -/
structure Oracles where
  load : String → GerberFile × Option String
  render : GerberFile → Bool → String
  gen : GerberFile → JobConfig → ToolSelection → Except String (List MotionCommand)

/-- Embedding of main.rs lines 150-154: the gerber file path is the forge
file's parent directory joined with the stage's `gerber_file`. -/
def gerberFullPath (bc : BuildCommand) (gerber_file : String) : String :=
  bc.forgeDir ++ "/" ++ gerber_file

/-- The motion commands one engrave stage contributes (main.rs lines
87-148, 156-160, 185 and 210-213): machine/tool resolution errors and
gerber load errors abort the stage, otherwise `generate_gcode` runs. -/
def engraveCommands (O : Oracles) (bc : BuildCommand) (g : Config)
    (forge : ForgeFile) (mc : Option (List String)) (gerber_file : String) :
    Except String (List MotionCommand) :=
  match resolveJobAndTool forge g mc with
  | .error e => .error e
  | .ok (job, sel) =>
      let loaded := O.load (gerberFullPath bc gerber_file)
      match loaded.2 with
      | some e => .error e
      | none => O.gen loaded.1 job sel

/-- The debug SVG files one engrave stage writes (main.rs lines 163-182 and
188-208): nothing when resolution fails (it precedes the renders) or debug
is off; only `gerber.svg` when the gerber load fails (the raw render runs
before the load error is handled at line 185); both otherwise. -/
def engraveWrites (O : Oracles) (bc : BuildCommand) (g : Config)
    (forge : ForgeFile) (i : ℕ) (mc : Option (List String))
    (gerber_file : String) : List FileWrite :=
  match resolveJobAndTool forge g mc with
  | .error _ => []
  | .ok _ =>
      let loaded := O.load (gerberFullPath bc gerber_file)
      let raw :=
        if bc.debug then
          [FileWrite.debugSvg i "gerber.svg" (O.render loaded.1 false)]
        else []
      match loaded.2 with
      | some _ => raw
      | none =>
          raw ++
            (if bc.debug then
              [FileWrite.debugSvg i "gerber_simplified.svg" (O.render loaded.1 true)]
            else [])

/-- Embedding of the stage loop of `build` (main.rs lines 62-224), threading
the read-only environment `(g, forge)` through to state the frame property:
each engrave stage performs its debug writes and appends its commands to
the accumulator for its destination path; the first error stops the loop;
`CutBoard` stages only log (main.rs lines 215-222). -/
def runStagesT (O : Oracles) (bc : BuildCommand) :
    Config × ForgeFile → ℕ → BuildState → List Stage →
    (Config × ForgeFile) × BuildState × Option String
  | env, _, st, [] => (env, st, none)
  | env, i, st, .CutBoard _ _ _ :: rest => runStagesT O bc env (i + 1) st rest
  | env, i, st, .EngraveMask mc gp gcp :: rest =>
      let ws := engraveWrites O bc env.1 env.2 i mc gp
      let st' : BuildState := ⟨st.gcodeFiles, st.writes ++ ws⟩
      match engraveCommands O bc env.1 env.2 mc gp with
      | .error e => (env, st', some e)
      | .ok cmds =>
          runStagesT O bc env (i + 1)
            ⟨appendEntry st'.gcodeFiles gcp cmds, st'.writes⟩ rest

/-- Embedding of the output-writing loop (main.rs lines 226-233): each
accumulated command list is serialized by `GCodeFile::to_string` and
written; a serialization error aborts the loop, keeping earlier writes. -/
def writeOutputs : List (String × List MotionCommand) →
    List FileWrite × Option String
  | [] => ([], none)
  | (p, cmds) :: rest =>
      match (GCodeFile.new cmds).to_string with
      | .error e => ([], some e)
      | .ok out =>
          let r := writeOutputs rest
          (FileWrite.gcode p out :: r.1, r.2)

/-- Embedding of `build` (main.rs lines 55-236) after the forge file has
been loaded: run all stages, then — only if no stage failed — write one
G-code file per destination path.  Returns the final state (accumulators
and write trace) and the error, if any. -/
def build (O : Oracles) (bc : BuildCommand) (g : Config) (forge : ForgeFile) :
    BuildState × Option String :=
  match runStagesT O bc (g, forge) 0 ⟨[], []⟩ forge.stages with
  | (_, st, some e) => (st, some e)
  | (_, st, none) =>
      let r := writeOutputs st.gcodeFiles
      (⟨st.gcodeFiles, st.writes ++ r.1⟩, r.2)

/-- The commands a stage contributes to destination path `p`: the
`generate_gcode` output of an engrave stage targeting `p`, nothing
otherwise.  Used to state the stage-order accumulation property. -/
def stageContrib (O : Oracles) (bc : BuildCommand) (g : Config)
    (forge : ForgeFile) (p : String) : Stage → List MotionCommand
  | .CutBoard _ _ _ => []
  | .EngraveMask mc gp gcp =>
      if gcp = p then
        match engraveCommands O bc g forge mc gp with
        | .ok cmds => cmds
        | .error _ => []
      else []

/-- Whether a stage is an engrave stage whose gerber drawing fails to
load under the load oracle `O`. -/
def stageLoadFails (O : Oracles) (bc : BuildCommand) : Stage → Prop
  | .EngraveMask _ gp _ => (O.load (gerberFullPath bc gp)).2.isSome
  | .CutBoard _ _ _ => False

/-- Sample laser tool: 1 mm point diameter, 5 W max power. -/
def laser0 : LaserConfig :=
  ⟨Length.ofMillimeter 1, ⟨5⟩⟩

/-- Sample job configuration selecting the laser tool `laser1`. -/
def job0 : JobConfig :=
  { tool := ["laser1"]
    distance_per_step := distance_per_step_default
    tool_power := .Laser ⟨5⟩ ⟨1⟩ }

/-- Sample machine with one laser tool and one engraving profile `p`. -/
def machine0 : Machine :=
  { tools := [("laser1", .Laser laser0)]
    engraving_configs := [("p", job0)]
    cutting_configs := []
    workspace_area := ⟨Length.ofMillimeter 100, Length.ofMillimeter 100⟩ }

/-- A distinct machine (different workspace width), used to exhibit
shadowing between the forge-file and global machine libraries. -/
def machineG : Machine :=
  { machine0 with workspace_area := ⟨Length.ofMillimeter 200, Length.ofMillimeter 100⟩ }

/-- Global config with neither a default engraver nor machines. -/
def gEmpty : Config :=
  ⟨none, []⟩

/-- Global config with a default engraver path and a machine named `m`. -/
def gWith : Config :=
  ⟨some ["m", "p"], [("m", machineG)]⟩

/-- Sample build arguments with debug output enabled. -/
def bc0 : BuildCommand :=
  ⟨"proj", "target", true⟩

/-- Forge file with one engrave stage and its own machine `m`. -/
def forge1 : ForgeFile :=
  ⟨[("m", machine0)], [.EngraveMask (some ["m", "p"]) "board.gbr" "out.nc"]⟩

/-- Forge file with two engrave stages writing the same destination. -/
def forge2 : ForgeFile :=
  ⟨[("m", machine0)],
    [.EngraveMask (some ["m", "p"]) "a.gbr" "out.nc",
     .EngraveMask (some ["m", "p"]) "b.gbr" "out.nc"]⟩

/-- Oracle whose gerber load always fails. -/
def OFail : Oracles :=
  ⟨fun _ => (⟨[]⟩, some "Failed to load gerber file."),
   fun _ _ => "svg",
   fun _ _ _ => .ok []⟩

/-- Oracle whose gerber load always succeeds and whose G-code generator
emits one comment naming the tool path. -/
def OOk : Oracles :=
  ⟨fun _ => (⟨[]⟩, none),
   fun _ _ => "svg",
   fun _ job _ => .ok [.Comment (joinPath job.tool)]⟩

/-- Sample G-code file for the codec determinism witness. -/
def gfile0 : GCodeFile :=
  GCodeFile.new [.RapidMove (.finite 0) (.finite 0), .Comment "hello"]

/-- Sample `Drill` tool-power configuration (100 rad/s spindle, 2 m/s
plunge speed). -/
def drill0 : ToolConfig :=
  .Drill ⟨100⟩ ⟨2⟩

/-- C3 counterexample: the claim that every physical-quantity field of the
machine/job configuration is deserialized through the checked value+unit
parser is false — `JobConfig.distance_per_step` is a physical quantity yet
is deserialized by the quantity type's derived deserializer with a serde
default (machine.rs lines 49-50). -/
theorem c3_counterexample :
    ¬ (∀ f ∈ machineConfigFields, f.physicalQuantity = true →
        f.deser = DeserVia.parseQuantity) := by
  decide

/-- C3 (amended): every physical-quantity field of the machine and job
configuration other than `JobConfig.distance_per_step` is deserialized
through the checked textual value+unit parser `parse_quantity`. -/
theorem c3_quantity_fields_use_parse_quantity :
    ∀ f ∈ machineConfigFields, f.physicalQuantity = true →
      f.name ≠ "JobConfig.distance_per_step" →
      f.deser = DeserVia.parseQuantity := by
  decide

/-- Witness for C3 at the concrete field `WorkspaceSize.width`. -/
theorem c3_witness :
    (⟨"WorkspaceSize.width", true, DeserVia.parseQuantity⟩ : FieldSpec) ∈
        machineConfigFields ∧
    (⟨"WorkspaceSize.width", true, DeserVia.parseQuantity⟩ : FieldSpec).deser =
        DeserVia.parseQuantity :=
  ⟨by decide,
   c3_quantity_fields_use_parse_quantity
     ⟨"WorkspaceSize.width", true, DeserVia.parseQuantity⟩
     (by decide) rfl (by decide)⟩

/-- C4: `GCodeFile::to_string` is a pure, deterministic function of the
command sequence — two files with the same sequence serialize to
byte-identical output (or the identical error). -/
theorem c4_to_string_deterministic (a b : GCodeFile)
    (h : a.commands = b.commands) : a.to_string = b.to_string := by
  cases a
  cases b
  cases h
  rfl

/-- Witness for C4 at a concrete two-command file. -/
theorem c4_witness :
    gfile0.commands = gfile0.commands ∧ gfile0.to_string = gfile0.to_string :=
  ⟨rfl, c4_to_string_deterministic gfile0 gfile0 rfl⟩

/-- C5 counterexample: the claim that every spindle tool-power
configuration carries exactly one of a work speed or a max cut depth fails
at the concrete `Drill` configuration, which carries neither. -/
theorem c5_counterexample :
    ¬ (drill0.isSpindleKind = true →
        drill0.hasSpindleRpm = true ∧ drill0.hasPlungeSpeed = true ∧
        xor drill0.hasWorkSpeed drill0.hasMaxCutDepth = true) := by
  decide

/-- C5 (amended): every spindle tool-power configuration carries a spindle
rpm and a plunge speed; a `Drill` additionally carries neither a work speed
nor a max cut depth, while an `EndMill` carries both.  Every laser
configuration carries a laser power and a work speed. -/
theorem c5_tool_power_shape :
    (∀ rpm ps, (ToolConfig.Drill rpm ps).hasSpindleRpm = true ∧
        (ToolConfig.Drill rpm ps).hasPlungeSpeed = true ∧
        (ToolConfig.Drill rpm ps).hasWorkSpeed = false ∧
        (ToolConfig.Drill rpm ps).hasMaxCutDepth = false) ∧
    (∀ rpm d ps ws, (ToolConfig.EndMill rpm d ps ws).hasSpindleRpm = true ∧
        (ToolConfig.EndMill rpm d ps ws).hasPlungeSpeed = true ∧
        (ToolConfig.EndMill rpm d ps ws).hasWorkSpeed = true ∧
        (ToolConfig.EndMill rpm d ps ws).hasMaxCutDepth = true) ∧
    (∀ lp ws, (ToolConfig.Laser lp ws).hasLaserPower = true ∧
        (ToolConfig.Laser lp ws).hasWorkSpeed = true) :=
  ⟨fun _ _ => ⟨rfl, rfl, rfl, rfl⟩,
   fun _ _ _ _ => ⟨rfl, rfl, rfl, rfl⟩,
   fun _ _ => ⟨rfl, rfl⟩⟩

/-- C6: the engagement radius of a tool selection is half the laser point
diameter for a laser and half the selected bit's diameter for a spindle,
both derived from data the selection carries. -/
theorem c6_engagement_radius :
    (∀ laser, (ToolSelection.Laser laser).engagementRadius =
        laser.point_diameter.half) ∧
    (∀ spindle bit, (ToolSelection.Spindle spindle bit).engagementRadius =
        bit.diameter.half) :=
  ⟨fun _ => rfl, fun _ _ => rfl⟩

/-- C8: engrave-stage machine resolution — the stage's own machine-config
path takes precedence over the global default engraver, the global default
is consulted exactly when the stage specifies none, and a forge-file
machine shadows a global machine of the same name. -/
theorem c8_machine_resolution (g : Config) (forge : ForgeFile) :
    (∀ p, resolveMachinePath (some p) g = .ok p) ∧
    (∀ p, g.default_engraver = some p → resolveMachinePath none g = .ok p) ∧
    (g.default_engraver = none → resolveMachinePath none g =
      .error "An engraver was not specified and a global default is not set.") ∧
    (∀ name m, alistGet forge.machines name = some m →
        lookupMachine forge g name = .ok m) := by
  refine ⟨fun p => rfl, fun p h => ?_, fun h => ?_, fun name m h => ?_⟩
  · simp [resolveMachinePath, h]
  · simp [resolveMachinePath, h]
  · simp [lookupMachine, h]

/-- Witness for C8: the stage path wins over a set global default, the
global default is used when the stage gives none, resolution fails when
neither exists, and the forge-file machine `m` shadows the distinct global
machine of the same name. -/
theorem c8_witness :
    resolveMachinePath (some ["n", "q"]) gWith = .ok ["n", "q"] ∧
    resolveMachinePath none gWith = .ok ["m", "p"] ∧
    resolveMachinePath none gEmpty =
      .error "An engraver was not specified and a global default is not set." ∧
    lookupMachine forge1 gWith "m" = .ok machine0 :=
  ⟨(c8_machine_resolution gWith forge1).1 ["n", "q"],
   (c8_machine_resolution gWith forge1).2.1 ["m", "p"] rfl,
   (c8_machine_resolution gEmpty forge1).2.2.1 rfl,
   (c8_machine_resolution gWith forge1).2.2.2 "m" machine0 rfl⟩

/-- C10: a job configuration that omits `distance_per_step` defaults it to
`distance_per_step_default`, which is exactly 0.1 millimetres (1/10000 of
the SI base metre). -/
theorem c10_distance_per_step_default_value :
    (∀ tool tp, (JobConfig.fromFields tool none tp).distance_per_step =
        Length.ofMillimeter (1 / 10)) ∧
    distance_per_step_default = Length.ofMillimeter (1 / 10) ∧
    (Length.ofMillimeter (1 / 10)).val = 1 / 10000 := by
  refine ⟨fun _ _ => rfl, rfl, ?_⟩
  norm_num [Length.ofMillimeter]

/-- A failing gerber load makes the whole engrave stage fail: resolution
errors propagate, and otherwise the stored load error is rethrown at
main.rs line 185 before `generate_gcode` can run. -/
theorem engraveCommands_error_of_load (O : Oracles) (bc : BuildCommand)
    (g : Config) (forge : ForgeFile) (mc : Option (List String)) (gp : String)
    (h : (O.load (gerberFullPath bc gp)).2.isSome) :
    ∃ e, engraveCommands O bc g forge mc gp = .error e := by
  unfold engraveCommands
  rcases hres : resolveJobAndTool forge g mc with e | js
  · exact ⟨e, rfl⟩
  · obtain ⟨job, sel⟩ := js
    rcases hl : (O.load (gerberFullPath bc gp)).2 with _ | e
    · rw [hl] at h
      simp at h
    · exact ⟨e, by simp [hl]⟩

/-- Every file an engrave stage writes is a debug SVG, never a G-code
output file. -/
theorem engraveWrites_no_gcode (O : Oracles) (bc : BuildCommand) (g : Config)
    (forge : ForgeFile) (i : ℕ) (mc : Option (List String)) (gp : String) :
    ∀ w ∈ engraveWrites O bc g forge i mc gp, w.isGcode = false := by
  intro w hw
  unfold engraveWrites at hw
  split at hw
  · simp at hw
  · rcases hl : (O.load (gerberFullPath bc gp)).2 with _ | e <;>
      split_ifs at hw <;> simp_all [FileWrite.isGcode] <;>
      rcases hw with rfl | rfl <;> rfl

/-- The stage loop only appends debug SVG writes: if the incoming state
contains no G-code write, neither does the state it returns. -/
theorem runStagesT_writes_no_gcode (O : Oracles) (bc : BuildCommand) :
    ∀ (stages : List Stage) (env : Config × ForgeFile) (i : ℕ) (st : BuildState),
    (∀ w ∈ st.writes, w.isGcode = false) →
    ∀ w ∈ (runStagesT O bc env i st stages).2.1.writes, w.isGcode = false := by
  intro stages
  induction stages with
  | nil =>
    intro env i st h
    simpa [runStagesT] using h
  | cons s rest ih =>
    intro env i st h
    rcases s with ⟨mc, gp, gcp⟩ | ⟨mc, gcp, f⟩
    · have hacc : ∀ w ∈ st.writes ++ engraveWrites O bc env.1 env.2 i mc gp,
          w.isGcode = false := by
        intro w hw
        rcases List.mem_append.mp hw with h1 | h2
        · exact h w h1
        · exact engraveWrites_no_gcode O bc env.1 env.2 i mc gp w h2
      rcases hc : engraveCommands O bc env.1 env.2 mc gp with e | cmds
      · intro w hw
        simp only [runStagesT, hc] at hw
        exact hacc w hw
      · intro w hw
        simp only [runStagesT, hc] at hw
        exact ih env (i + 1) _ hacc w hw
    · intro w hw
      simp only [runStagesT] at hw
      exact ih env (i + 1) st h w hw

/-- If some stage's gerber load fails, the stage loop stops with an
error. -/
theorem runStagesT_error_of_loadFail (O : Oracles) (bc : BuildCommand) :
    ∀ (stages : List Stage) (env : Config × ForgeFile) (i : ℕ) (st : BuildState),
    (∃ s ∈ stages, stageLoadFails O bc s) →
    (runStagesT O bc env i st stages).2.2.isSome = true := by
  intro stages
  induction stages with
  | nil =>
    intro env i st h
    simp at h
  | cons s rest ih =>
    intro env i st h
    rcases s with ⟨mc, gp, gcp⟩ | ⟨mc, gcp, f⟩
    · rcases hc : engraveCommands O bc env.1 env.2 mc gp with e | cmds
      · simp [runStagesT, hc]
      · have hrest : ∃ s ∈ rest, stageLoadFails O bc s := by
          rcases h with ⟨t, ht, hfail⟩
          rcases List.mem_cons.mp ht with rfl | hm
          · exfalso
            obtain ⟨e, he⟩ :=
              engraveCommands_error_of_load O bc env.1 env.2 mc gp hfail
            rw [he] at hc
            cases hc
          · exact ⟨t, hm, hfail⟩
        simpa [runStagesT, hc] using ih env (i + 1) _ hrest
    · have hrest : ∃ s ∈ rest, stageLoadFails O bc s := by
        rcases h with ⟨t, ht, hfail⟩
        rcases List.mem_cons.mp ht with rfl | hm
        · exact absurd hfail (by simp [stageLoadFails])
        · exact ⟨t, hm, hfail⟩
      simpa [runStagesT] using ih env (i + 1) st hrest

/-- C1: if the gerber drawing of any engrave stage fails to load, `build`
returns an error, and its write trace contains no G-code output file for
any destination path — the output-writing loop never runs. -/
theorem c1_no_gcode_output_on_load_failure (O : Oracles) (bc : BuildCommand)
    (g : Config) (forge : ForgeFile)
    (h : ∃ s ∈ forge.stages, stageLoadFails O bc s) :
    (build O bc g forge).2.isSome = true ∧
    ∀ w ∈ (build O bc g forge).1.writes, w.isGcode = false := by
  have herr := runStagesT_error_of_loadFail O bc forge.stages (g, forge) 0 ⟨[], []⟩ h
  have hwr := runStagesT_writes_no_gcode O bc forge.stages (g, forge) 0 ⟨[], []⟩
      (by intro w hw; simp at hw)
  unfold build
  rcases hrun : runStagesT O bc (g, forge) 0 ⟨[], []⟩ forge.stages with ⟨env', st, err⟩
  rw [hrun] at herr hwr
  rcases err with _ | e
  · simp at herr
  · exact ⟨by simp, hwr⟩

/-- Witness for C1: a one-stage forge file whose gerber load fails makes
`build` return an error. -/
theorem c1_witness :
    (∃ s ∈ forge1.stages, stageLoadFails OFail bc0 s) ∧
    (build OFail bc0 gEmpty forge1).2.isSome = true := by
  have h : ∃ s ∈ forge1.stages, stageLoadFails OFail bc0 s :=
    ⟨.EngraveMask (some ["m", "p"]) "board.gbr" "out.nc",
      by simp [forge1], by simp [stageLoadFails, OFail]⟩
  exact ⟨h, (c1_no_gcode_output_on_load_failure OFail bc0 gEmpty forge1 h).1⟩

/-- Appending to one destination's accumulator extends exactly that
destination's command list and leaves every other destination alone. -/
theorem alistGetD_appendEntry (m : List (String × List MotionCommand))
    (k p : String) (cmds : List MotionCommand) :
    alistGetD (appendEntry m k cmds) p [] =
      alistGetD m p [] ++ (if k = p then cmds else []) := by
  induction m with
  | nil =>
    by_cases h : k = p <;> simp [appendEntry, alistGetD, alistGet, h]
  | cons kv rest ih =>
    obtain ⟨k', v⟩ := kv
    by_cases h1 : k' = k
    · subst h1
      by_cases h2 : k' = p <;> simp [appendEntry, alistGetD, alistGet, h2]
    · by_cases h2 : k' = p
      · subst h2
        have : ¬ k = k' := fun h => h1 h.symm
        simp [appendEntry, alistGetD, alistGet, h1, this]
      · simp only [appendEntry, if_neg h1]
        simpa [alistGetD, alistGet, h2] using ih

/-- When the stage loop finishes without an error, each destination path's
accumulator equals what it started with followed by every stage's
contribution to that path, concatenated in stage order. -/
theorem runStagesT_accumulates (O : Oracles) (bc : BuildCommand) :
    ∀ (stages : List Stage) (env : Config × ForgeFile) (i : ℕ) (st : BuildState)
      (env' : Config × ForgeFile) (st' : BuildState),
    runStagesT O bc env i st stages = (env', st', none) →
    ∀ p, alistGetD st'.gcodeFiles p [] =
      alistGetD st.gcodeFiles p [] ++
        (stages.map (stageContrib O bc env.1 env.2 p)).flatten := by
  intro stages
  induction stages with
  | nil =>
    intro env i st env' st' hrun p
    simp only [runStagesT, Prod.mk.injEq] at hrun
    obtain ⟨-, h2, -⟩ := hrun
    subst h2
    simp
  | cons s rest ih =>
    intro env i st env' st' hrun p
    rcases s with ⟨mc, gp, gcp⟩ | ⟨mc, gcp, f⟩
    · rcases hc : engraveCommands O bc env.1 env.2 mc gp with e | cmds
      · simp [runStagesT, hc] at hrun
      · simp only [runStagesT, hc] at hrun
        have hrec := ih env (i + 1) _ env' st' hrun p
        simp only [BuildState.mk.injEq] at hrec ⊢
        rw [hrec]
        simp [alistGetD_appendEntry, stageContrib, hc, List.append_assoc]
    · simp only [runStagesT] at hrun
      have hrec := ih env (i + 1) st env' st' hrun p
      rw [hrec]
      simp [stageContrib]

/-- C2: when `build` succeeds, the command list accumulated for every
destination G-code path is exactly the concatenation, in stage-processing
order, of the commands generated by each stage naming that path. -/
theorem c2_accumulation_in_stage_order (O : Oracles) (bc : BuildCommand)
    (g : Config) (forge : ForgeFile)
    (h : (build O bc g forge).2 = none) :
    ∀ p, alistGetD (build O bc g forge).1.gcodeFiles p [] =
      (forge.stages.map (stageContrib O bc g forge p)).flatten := by
  intro p
  unfold build at h ⊢
  rcases hrun : runStagesT O bc (g, forge) 0 ⟨[], []⟩ forge.stages with ⟨env', st, err⟩
  rcases err with _ | e
  · have := runStagesT_accumulates O bc forge.stages (g, forge) 0 ⟨[], []⟩ env' st hrun p
    simpa [alistGetD, alistGet] using this
  · rw [hrun] at h
    simp at h

/-- Witness for C2: two engrave stages writing `out.nc` accumulate their
commands in stage order into one entry. -/
theorem c2_witness :
    (build OOk bc0 gEmpty forge2).2 = none ∧
    alistGetD (build OOk bc0 gEmpty forge2).1.gcodeFiles "out.nc" [] =
      (forge2.stages.map (stageContrib OOk bc0 gEmpty forge2 "out.nc")).flatten :=
  ⟨rfl, c2_accumulation_in_stage_order OOk bc0 gEmpty forge2 rfl "out.nc"⟩

/-- The stage loop threads the configuration environment through unchanged:
no stage, and in particular no `generate_gcode` call, writes to the global
config or the forge file (and hence to any `JobConfig`). -/
theorem runStagesT_env_eq (O : Oracles) (bc : BuildCommand) :
    ∀ (stages : List Stage) (env : Config × ForgeFile) (i : ℕ) (st : BuildState),
    (runStagesT O bc env i st stages).1 = env := by
  intro stages
  induction stages with
  | nil =>
    intro env i st
    simp [runStagesT]
  | cons s rest ih =>
    intro env i st
    rcases s with ⟨mc, gp, gcp⟩ | ⟨mc, gcp, f⟩
    · rcases hc : engraveCommands O bc env.1 env.2 mc gp with e | cmds
      · simp [runStagesT, hc]
      · simpa [runStagesT, hc] using ih env (i + 1) _
    · simpa [runStagesT] using ih env (i + 1) st

/-- C7: toolpath generation never mutates the job configuration — after
running any stages (each of which resolves its `JobConfig` by shared
reference and calls `generate_gcode` with it), the configuration
environment is unchanged, so resolving any engrave stage's job
configuration and tool afterwards gives exactly what it gave before. -/
theorem c7_job_config_never_mutated (O : Oracles) (bc : BuildCommand)
    (g : Config) (forge : ForgeFile) (i : ℕ) (st : BuildState)
    (stages : List Stage) :
    (runStagesT O bc (g, forge) i st stages).1 = (g, forge) ∧
    ∀ mc, resolveJobAndTool (runStagesT O bc (g, forge) i st stages).1.2
        (runStagesT O bc (g, forge) i st stages).1.1 mc =
      resolveJobAndTool forge g mc := by
  have h := runStagesT_env_eq O bc stages (g, forge) i st
  exact ⟨h, fun mc => by rw [h]⟩

/-- Under a failing load with successful resolution, the engrave stage
writes exactly the raw debug SVG when debug output is on. -/
theorem engraveWrites_of_load_failure (O : Oracles) (bc : BuildCommand)
    (g : Config) (forge : ForgeFile) (i : ℕ) (mc : Option (List String))
    (gp : String) (job : JobConfig) (sel : ToolSelection) (e : String)
    (hdebug : bc.debug = true)
    (hres : resolveJobAndTool forge g mc = .ok (job, sel))
    (hload : (O.load (gerberFullPath bc gp)).2 = some e) :
    engraveWrites O bc g forge i mc gp =
      [FileWrite.debugSvg i "gerber.svg"
        (O.render (O.load (gerberFullPath bc gp)).1 false)] := by
  unfold engraveWrites
  rw [hres]
  simp [hload, hdebug]

/-- C9: with debug output enabled, a first engrave stage whose machine and
tool resolve but whose gerber load fails still writes the raw debug SVG
`gerber.svg` (rendered from the partially loaded drawing) before the load
error aborts the build, and the simplified debug SVG
`gerber_simplified.svg` is never written. -/
theorem c9_raw_svg_written_on_load_failure (O : Oracles) (bc : BuildCommand)
    (g : Config) (forge : ForgeFile) (mc : Option (List String))
    (gp gcp : String) (rest : List Stage) (job : JobConfig)
    (sel : ToolSelection) (e : String)
    (hstages : forge.stages = Stage.EngraveMask mc gp gcp :: rest)
    (hdebug : bc.debug = true)
    (hres : resolveJobAndTool forge g mc = .ok (job, sel))
    (hload : (O.load (gerberFullPath bc gp)).2 = some e) :
    (build O bc g forge).1.writes =
      [FileWrite.debugSvg 0 "gerber.svg"
        (O.render (O.load (gerberFullPath bc gp)).1 false)] ∧
    (∀ j c, FileWrite.debugSvg j "gerber_simplified.svg" c ∉
        (build O bc g forge).1.writes) ∧
    (build O bc g forge).2 = some e := by
  have hcmds : engraveCommands O bc g forge mc gp = .error e := by
    unfold engraveCommands
    rw [hres]
    simp [hload]
  have hw := engraveWrites_of_load_failure O bc g forge 0 mc gp job sel e
    hdebug hres hload
  unfold build
  rw [hstages]
  simp only [runStagesT, hcmds, hw]
  refine ⟨by trivial, fun j c => by simp, by trivial⟩

/-- Witness for C9: the concrete one-stage forge file under the failing
load oracle writes exactly the raw debug SVG and aborts with the load
error. -/
theorem c9_witness :
    (build OFail bc0 gEmpty forge1).1.writes =
      [FileWrite.debugSvg 0 "gerber.svg"
        (OFail.render (OFail.load (gerberFullPath bc0 "board.gbr")).1 false)] ∧
    (∀ j c, FileWrite.debugSvg j "gerber_simplified.svg" c ∉
        (build OFail bc0 gEmpty forge1).1.writes) ∧
    (build OFail bc0 gEmpty forge1).2 = some "Failed to load gerber file." :=
  c9_raw_svg_written_on_load_failure OFail bc0 gEmpty forge1
    (some ["m", "p"]) "board.gbr" "out.nc" [] job0 (.Laser laser0)
    "Failed to load gerber file." rfl rfl rfl rfl

end PcbForge
